import Mathlib

set_option maxRecDepth 8192

namespace VehiclePriceFinder

/-- JSON values, modelling the parsed request and response bodies handled by
src/server.js. Numbers are modelled as integers, which covers every number the
server itself produces (status codes and counts). -/
inductive Json where
  | jnull : Json
  | jbool : Bool → Json
  | jnum : Int → Json
  | jstr : String → Json
  | jarr : List Json → Json
  | jobj : List (String × Json) → Json

/-- First field with the given name in an object field list (JS property read on
plain objects, whose keys are unique). -/
def lookupField : List (String × Json) → String → Option Json
  | [], _ => none
  | (k, v) :: rest, key => if k == key then some v else lookupField rest key

/-- Whether an object field list has a field with the given name. -/
def hasKey : List (String × Json) → String → Bool
  | [], _ => false
  | (k, _) :: rest, key => k == key || hasKey rest key

/-- Replace the value of every field with the given name, in place. -/
def replaceField : List (String × Json) → String → Json → List (String × Json)
  | [], _, _ => []
  | (k, w) :: rest, key, v =>
    if k == key then (key, v) :: replaceField rest key v
    else (k, w) :: replaceField rest key v

/-- JS object-spread update semantics: an existing field keeps its position and
gets the new value, a new field is appended at the end. -/
def setField (fs : List (String × Json)) (key : String) (v : Json) :
    List (String × Json) :=
  if hasKey fs key then replaceField fs key v else fs ++ [(key, v)]

/-- Own enumerable properties of a JS value, as used by object spread: objects
give their fields, arrays and strings give index-keyed entries, primitives give
nothing. -/
def ownEnumerable : Json → List (String × Json)
  | .jobj fs => fs
  | .jarr xs => xs.enum.map (fun p => (Nat.repr p.1, p.2))
  | .jstr s => s.data.enum.map (fun p => (Nat.repr p.1, Json.jstr (String.mk [p.2])))
  | _ => []

/-- The cached-hit response body built at src/server.js line 84:
res.json with the cachedData spread plus cached set to true. -/
def spreadWithCached (d : Json) : Json :=
  Json.jobj (setField (ownEnumerable d) "cached" (Json.jbool true))

/-- JS property access data.k for the values we model; non-objects have no such
property. -/
def jget : Json → String → Option Json
  | .jobj fs, k => lookupField fs k
  | _, _ => none

/-- Whether a JS value spread into an object contributes a field named k. -/
def hasOwn (d : Json) (k : String) : Bool := hasKey (ownEnumerable d) k

/-- JS truthiness test on a JSON value. -/
def jsFalsy : Json → Bool
  | .jnull => true
  | .jbool b => !b
  | .jnum n => n == 0
  | .jstr s => s == ""
  | .jarr _ => false
  | .jobj _ => false

/-- The test v.length === 0 for the values where length is defined; on other
values the strict comparison with 0 is false. -/
def lengthIsZero : Json → Bool
  | .jarr xs => xs.isEmpty
  | .jstr s => s.length == 0
  | _ => false

/-- The guard at src/server.js line 129: !data.listings || data.listings.length === 0. -/
def isEmptyListings (d : Json) : Bool :=
  match jget d "listings" with
  | none => true
  | some v => jsFalsy v || lengthIsZero v

/-- JS falsiness of an optional string: undefined or the empty string.
Used for the required query fields, the API key and the CORS origin. -/
def strFalsy : Option String → Bool
  | none => true
  | some s => s == ""

/-- A stored cache value: the payload plus the Date.now() timestamp recorded by
setCache (src/server.js lines 53-58). -/
structure CacheEntry where
  data : Json
  timestamp : Nat

/-- The module-level Map at src/server.js line 37, modelled as an association
list with unique keys. -/
abbrev Cache := List (String × CacheEntry)

/-- Map.prototype.get. -/
def mapGet : Cache → String → Option CacheEntry
  | [], _ => none
  | (k, v) :: rest, key => if k == key then some v else mapGet rest key

/-- Map.prototype.set: update in place or append. -/
def mapSet : Cache → String → CacheEntry → Cache
  | [], key, v => [(key, v)]
  | (k, w) :: rest, key, v =>
    if k == key then (key, v) :: rest else (k, w) :: mapSet rest key v

/-- Map.prototype.delete (a no-op when the key is absent). -/
def mapDelete : Cache → String → Cache
  | [], _ => []
  | (k, w) :: rest, key =>
    if k == key then mapDelete rest key else (k, w) :: mapDelete rest key

/-- CACHE_DURATION = 30 * 60 * 1000 at src/server.js line 38. -/
def CACHE_DURATION : Nat := 30 * 60 * 1000

/-- getFromCache (src/server.js lines 44-51): return fresh data, otherwise
delete the key and report a miss. Clock values are naturals; as in the JS
(where a negative difference is below the duration), an entry stamped in the
future counts as fresh because truncated subtraction yields 0. -/
def getFromCache (now : Nat) (c : Cache) (key : String) : Option Json × Cache :=
  match mapGet c key with
  | some cached =>
    if now - cached.timestamp < CACHE_DURATION then (some cached.data, c)
    else (none, mapDelete c key)
  | none => (none, mapDelete c key)

/-- setCache (src/server.js lines 53-58). -/
def setCache (key : String) (data : Json) (now : Nat) (c : Cache) : Cache :=
  mapSet c key ⟨data, now⟩

/-- The character with code 34. -/
def quoteChar : Char := Char.ofNat 34

/-- The character with code 92. -/
def backslashChar : Char := Char.ofNat 92

/-- Lowercase hexadecimal digit characters, as produced by toString(16). -/
def hexChar : Nat → Char
  | 0 => '0' | 1 => '1' | 2 => '2' | 3 => '3' | 4 => '4' | 5 => '5' | 6 => '6'
  | 7 => '7' | 8 => '8' | 9 => '9' | 10 => 'a' | 11 => 'b' | 12 => 'c'
  | 13 => 'd' | 14 => 'e' | _ => 'f'

/-- JSON.stringify escaping of one character inside a string literal
(ECMA-262 QuoteJSONString): quote and backslash get a backslash escape, the
five named control characters get their two-character escapes, the remaining
control characters get a lowercase unicode escape, and every other character
is copied unchanged. -/
def escChar (c : Char) : List Char :=
  if c = quoteChar then [backslashChar, quoteChar]
  else if c = backslashChar then [backslashChar, backslashChar]
  else if c = Char.ofNat 8 then [backslashChar, 'b']
  else if c = Char.ofNat 12 then [backslashChar, 'f']
  else if c = Char.ofNat 10 then [backslashChar, 'n']
  else if c = Char.ofNat 13 then [backslashChar, 'r']
  else if c = Char.ofNat 9 then [backslashChar, 't']
  else if c.toNat < 32 then
    [backslashChar, 'u', '0', '0', hexChar (c.toNat / 16), hexChar (c.toNat % 16)]
  else [c]

/-- JSON.stringify escaping of a character sequence. -/
def escList : List Char → List Char
  | [] => []
  | c :: cs => escChar c ++ escList cs

/-- The character data of a string literal. -/
def lit (s : String) : List Char := s.data

/-- The radius value placed in the params object at src/server.js line 79:
either the query string value, or the numeric default 50 from the destructuring
at line 71, which JSON.stringify renders without quotes. -/
inductive RadiusVal where
  | fromQuery : String → RadiusVal
  | defaultNum : RadiusVal

/-- JSON.stringify of the radius value. -/
def serRadius : RadiusVal → List Char
  | .fromQuery s => quoteChar :: (escList s.data ++ [quoteChar])
  | .defaultNum => ['5', '0']

/-- The params object passed to getCacheKey at src/server.js line 79. -/
structure KeyParams where
  make : String
  model : String
  year : String
  zip : String
  radius : RadiusVal

/-- JSON.stringify of the params object, with its keys in insertion order. -/
def stringifyParams (p : KeyParams) : List Char :=
  lit "\x7b\"make\":\"" ++ escList p.make.data
    ++ lit "\",\"model\":\"" ++ escList p.model.data
    ++ lit "\",\"year\":\"" ++ escList p.year.data
    ++ lit "\",\"zip\":\"" ++ escList p.zip.data
    ++ lit "\",\"radius\":" ++ serRadius p.radius
    ++ lit "\x7d"

/-- getCacheKey (src/server.js lines 40-42). -/
def getCacheKey (endpoint : String) (p : KeyParams) : String :=
  endpoint ++ "-" ++ String.mk (stringifyParams p)

/-- The query parameters of a request to /api/vehicles/search. Absent
parameters are none; rows is destructured at line 71 but never reaches the
cache key. -/
structure Query where
  make : Option String
  model : Option String
  year : Option String
  zip : Option String
  radius : Option String
  rows : Option String

/-- The radius used for the cache key: the query value, or the default 50. -/
def radiusVal (q : Query) : RadiusVal :=
  match q.radius with
  | some s => .fromQuery s
  | none => .defaultNum

/-- The params object for the cache key of a (validated) query; the four
required fields are known to be present at this point. -/
def searchKeyParams (q : Query) : KeyParams :=
  { make := q.make.getD "", model := q.model.getD "", year := q.year.getD "",
    zip := q.zip.getD "", radius := radiusVal q }

/-- The reply of one upstream fetch: HTTP status, the text body read on
failure, and the parsed JSON body read on success. -/
structure UpstreamResp where
  status : Nat
  textBody : String
  jsonBody : Json

/-- Response.ok: status in the 200-299 range. -/
def respOk (r : UpstreamResp) : Bool :=
  decide (200 ≤ r.status) && decide (r.status ≤ 299)

/-- An HTTP reply sent by the route handler. -/
structure HttpResponse where
  status : Nat
  body : Json

/-- The observable outcome of one request to /api/vehicles/search: the reply,
the cache state afterwards, and how many upstream fetches were performed. -/
structure SearchOutcome where
  resp : HttpResponse
  cache : Cache
  upstreamCalls : Nat

/-- The 400 message at src/server.js lines 74-76. -/
def missingParamsMsg : String := "Missing required parameters: make, model, year, zip"

/-- The 500 body at src/server.js lines 88-91. -/
def configErrBody : Json :=
  Json.jobj [("error", Json.jstr "Marketcheck API key not configured"),
    ("message", Json.jstr "Please add MARKETCHECK_API_KEY to your .env file")]

/-- The upstream-failure body at src/server.js lines 120-124. -/
def upstreamErrBody (status : Nat) (details : String) : Json :=
  Json.jobj [("error", Json.jstr "Marketcheck API request failed"),
    ("status", Json.jnum status), ("details", Json.jstr details)]

/-- The empty-result body at src/server.js lines 130-134. -/
def emptyPayload : Json :=
  Json.jobj [("listings", Json.jarr []), ("num_found", Json.jnum 0),
    ("message", Json.jstr "No listings found for this vehicle")]

/-- The GET /api/vehicles/search handler (src/server.js lines 69-147), as a
function of the configured API key, the clock, the upstream reply that a fetch
would produce, the cache, and the query. The handler awaits at most one fetch,
so a single upstream reply suffices; upstreamCalls counts the fetches actually
performed. -/
def search (apiKey : Option String) (now : Nat) (upstream : UpstreamResp)
    (c : Cache) (q : Query) : SearchOutcome :=
  if strFalsy q.make || strFalsy q.model || strFalsy q.year || strFalsy q.zip then
    ⟨⟨400, Json.jobj [("error", Json.jstr missingParamsMsg)]⟩, c, 0⟩
  else
    let cacheKey := getCacheKey "search" (searchKeyParams q)
    match getFromCache now c cacheKey with
    | (some cachedData, c1) => ⟨⟨200, spreadWithCached cachedData⟩, c1, 0⟩
    | (none, c1) =>
      if strFalsy apiKey then ⟨⟨500, configErrBody⟩, c1, 0⟩
      else if !(respOk upstream) then
        ⟨⟨upstream.status, upstreamErrBody upstream.status upstream.textBody⟩, c1, 1⟩
      else if isEmptyListings upstream.jsonBody then
        ⟨⟨200, emptyPayload⟩, c1, 1⟩
      else
        ⟨⟨200, upstream.jsonBody⟩, setCache cacheKey upstream.jsonBody now c1, 1⟩

/-- The CORS allow list at src/server.js lines 15-18. -/
def allowedOrigins : List String := ["http://localhost:3000", "https://claude.ai"]

/-- The CORS origin callback at src/server.js lines 11-26, returning the pair
of arguments passed to the callback. -/
def corsOrigin (origin : Option String) : Option String × Bool :=
  if strFalsy origin then (none, true)
  else if (origin.getD "").endsWith ".claude.ai"
      || allowedOrigins.contains (origin.getD "") then (none, true)
  else (none, true)

/-- The character with code 125. -/
def closeBraceChar : Char := Char.ofNat 125

/-- Value of a lowercase hexadecimal digit character. -/
def hexVal (c : Char) : Option Nat :=
  if c = '0' then some 0 else if c = '1' then some 1 else if c = '2' then some 2
  else if c = '3' then some 3 else if c = '4' then some 4 else if c = '5' then some 5
  else if c = '6' then some 6 else if c = '7' then some 7 else if c = '8' then some 8
  else if c = '9' then some 9 else if c = 'a' then some 10 else if c = 'b' then some 11
  else if c = 'c' then some 12 else if c = 'd' then some 13 else if c = 'e' then some 14
  else if c = 'f' then some 15 else none

/-- Greedy decoder for one escChar-encoded character: the escape code is an
instantaneous code, so decoding the first code word of a concatenation is
well defined. Used only to prove that escChar concatenations are injective. -/
def decChar : List Char → Option (Char × List Char)
  | [] => none
  | c :: r =>
    if c = backslashChar then
      match r with
      | [] => none
      | d :: r2 =>
        if d = quoteChar then some (quoteChar, r2)
        else if d = backslashChar then some (backslashChar, r2)
        else if d = 'b' then some (Char.ofNat 8, r2)
        else if d = 'f' then some (Char.ofNat 12, r2)
        else if d = 'n' then some (Char.ofNat 10, r2)
        else if d = 'r' then some (Char.ofNat 13, r2)
        else if d = 't' then some (Char.ofNat 9, r2)
        else if d = 'u' then
          match r2 with
          | z1 :: z2 :: h1 :: h2 :: r3 =>
            if z1 = '0' then
              if z2 = '0' then
                match hexVal h1, hexVal h2 with
                | some a, some b => some (Char.ofNat (16 * a + b), r3)
                | _, _ => none
              else none
            else none
          | _ => none
        else none
    else some (c, r)

theorem charOfNat_toNat (c : Char) : Char.ofNat c.toNat = c := by
  have h : Nat.isValidChar c.toNat := c.valid
  unfold Char.ofNat
  rw [dif_pos h]
  rcases c with ⟨⟨v⟩, hv⟩
  simp only [Char.ofNatAux, Char.toNat, UInt32.toNat]
  congr 1

theorem hexVal_hexChar : ∀ n < 16, hexVal (hexChar n) = some n := by decide

theorem decChar_unicode (a b : Nat) (ha : a < 16) (hb : b < 16) (rest : List Char) :
    decChar (backslashChar :: 'u' :: '0' :: '0' :: hexChar a :: hexChar b :: rest)
      = some (Char.ofNat (16 * a + b), rest) := by
  have h1 := hexVal_hexChar a ha
  have h2 := hexVal_hexChar b hb
  simp +decide [decChar, h1, h2]

theorem decChar_escChar (c : Char) (rest : List Char) :
    decChar (escChar c ++ rest) = some (c, rest) := by
  unfold escChar
  split_ifs with h1 h2 h3 h4 h5 h6 h7 h8
  · subst h1; rfl
  · subst h2; rfl
  · subst h3; rfl
  · subst h4; rfl
  · subst h5; rfl
  · subst h6; rfl
  · subst h7; rfl
  · have ha : c.toNat / 16 < 16 := by omega
    have hb : c.toNat % 16 < 16 := by omega
    rw [List.cons_append, List.cons_append, List.cons_append, List.cons_append,
      List.cons_append, List.cons_append, List.nil_append]
    rw [decChar_unicode _ _ ha hb]
    have : 16 * (c.toNat / 16) + c.toNat % 16 = c.toNat := by omega
    rw [this, charOfNat_toNat]
  · rw [List.cons_append, List.nil_append]
    have hc : ¬(c = backslashChar) := h2
    simp [decChar, hc]

theorem escChar_cons_ne_quote (b : Char) (Z r : List Char) :
    escChar b ++ Z = quoteChar :: r → False := by
  intro h
  unfold escChar at h
  split_ifs at h with h1 h2 h3 h4 h5 h6 h7 h8 <;> simp_all +decide

theorem escList_quote_inj (s1 : List Char) : ∀ (s2 r1 r2 : List Char),
    escList s1 ++ (quoteChar :: r1) = escList s2 ++ (quoteChar :: r2) →
      s1 = s2 ∧ r1 = r2 := by
  induction s1 with
  | nil =>
    intro s2 r1 r2 h
    cases s2 with
    | nil => simp_all [escList]
    | cons b s2 =>
      exfalso
      rw [escList, escList, List.nil_append, List.append_assoc] at h
      exact escChar_cons_ne_quote b _ r1 h.symm
  | cons a s1 ih =>
    intro s2 r1 r2 h
    cases s2 with
    | nil =>
      exfalso
      rw [escList, escList, List.nil_append, List.append_assoc] at h
      exact escChar_cons_ne_quote a _ r2 h
    | cons b s2 =>
      rw [escList, escList, List.append_assoc, List.append_assoc] at h
      have hd := congrArg decChar h
      rw [decChar_escChar, decChar_escChar] at hd
      obtain ⟨hab, htail⟩ : a = b ∧
          escList s1 ++ (quoteChar :: r1) = escList s2 ++ (quoteChar :: r2) := by
        simpa using hd
      obtain ⟨hs, hr⟩ := ih s2 r1 r2 htail
      exact ⟨by rw [hab, hs], hr⟩

theorem serRadius_close_inj (v1 v2 : RadiusVal)
    (h : serRadius v1 ++ [closeBraceChar] = serRadius v2 ++ [closeBraceChar]) :
    v1 = v2 := by
  cases v1 with
  | fromQuery s1 =>
    cases v2 with
    | fromQuery s2 =>
      simp only [serRadius, List.cons_append, List.append_assoc,
        List.singleton_append] at h
      have h2 : escList s1.data ++ (quoteChar :: [closeBraceChar])
          = escList s2.data ++ (quoteChar :: [closeBraceChar]) := by
        simpa using h
      obtain ⟨hs, -⟩ :=
        escList_quote_inj s1.data s2.data [closeBraceChar] [closeBraceChar] h2
      have hss : s1 = s2 := by
        cases s1; cases s2; simp_all
      rw [hss]
    | defaultNum => simp_all +decide [serRadius]
  | defaultNum =>
    cases v2 with
    | fromQuery s2 => simp_all +decide [serRadius]
    | defaultNum => rfl

theorem lit_model_split : lit "\",\"model\":\"" = quoteChar :: lit ",\"model\":\"" := rfl

theorem lit_year_split : lit "\",\"year\":\"" = quoteChar :: lit ",\"year\":\"" := rfl

theorem lit_zip_split : lit "\",\"zip\":\"" = quoteChar :: lit ",\"zip\":\"" := rfl

theorem lit_radius_split : lit "\",\"radius\":" = quoteChar :: lit ",\"radius\":" := rfl

theorem lit_close_brace : lit "\x7d" = [closeBraceChar] := rfl

/-- The serialized params rewritten so that each escaped field is followed by
its closing quote and the rest of the text. -/
theorem stringifyParams_eq (p : KeyParams) :
    stringifyParams p =
      lit "\x7b\"make\":\"" ++ (escList p.make.data ++ (quoteChar ::
        (lit ",\"model\":\"" ++ (escList p.model.data ++ (quoteChar ::
          (lit ",\"year\":\"" ++ (escList p.year.data ++ (quoteChar ::
            (lit ",\"zip\":\"" ++ (escList p.zip.data ++ (quoteChar ::
              (lit ",\"radius\":" ++
                (serRadius p.radius ++ [closeBraceChar]))))))))))))) := by
  simp only [stringifyParams, lit_model_split, lit_year_split, lit_zip_split,
    lit_radius_split, lit_close_brace, List.append_assoc, List.cons_append]

theorem stringifyParams_inj (p1 p2 : KeyParams)
    (h : stringifyParams p1 = stringifyParams p2) : p1 = p2 := by
  obtain ⟨m1, mo1, y1, z1, r1⟩ := p1
  obtain ⟨m2, mo2, y2, z2, r2⟩ := p2
  rw [stringifyParams_eq, stringifyParams_eq] at h
  simp only at h
  have h1 := List.append_cancel_left h
  obtain ⟨hm, h2⟩ := escList_quote_inj _ _ _ _ h1
  have h3 := List.append_cancel_left h2
  obtain ⟨hmo, h4⟩ := escList_quote_inj _ _ _ _ h3
  have h5 := List.append_cancel_left h4
  obtain ⟨hy, h6⟩ := escList_quote_inj _ _ _ _ h5
  have h7 := List.append_cancel_left h6
  obtain ⟨hz, h8⟩ := escList_quote_inj _ _ _ _ h7
  have h9 := List.append_cancel_left h8
  have hr := serRadius_close_inj _ _ h9
  have hms : m1 = m2 := by cases m1; cases m2; simp_all
  have hmos : mo1 = mo2 := by cases mo1; cases mo2; simp_all
  have hys : y1 = y2 := by cases y1; cases y2; simp_all
  have hzs : z1 = z2 := by cases z1; cases z2; simp_all
  simp_all

theorem getCacheKey_search_inj (p1 p2 : KeyParams)
    (h : getCacheKey "search" p1 = getCacheKey "search" p2) : p1 = p2 := by
  apply stringifyParams_inj
  have hd := congrArg String.data h
  simp only [getCacheKey, String.data_append] at hd
  exact List.append_cancel_left hd

theorem mapGet_mapSet_self (c : Cache) (k : String) (v : CacheEntry) :
    mapGet (mapSet c k v) k = some v := by
  induction c with
  | nil => simp [mapSet, mapGet]
  | cons p rest ih =>
    obtain ⟨k0, v0⟩ := p
    by_cases h : k0 == k
    · simp [mapSet, mapGet, h]
    · simp only [mapSet, mapGet, h]
      simp [mapGet, h, ih]

theorem mapDelete_of_get_none (c : Cache) (k : String) (h : mapGet c k = none) :
    mapDelete c k = c := by
  induction c with
  | nil => rfl
  | cons p rest ih =>
    obtain ⟨k0, v0⟩ := p
    by_cases hk : k0 == k
    · simp [mapGet, hk] at h
    · simp only [mapGet, hk] at h
      simp [mapDelete, hk, ih h]

theorem mapGet_mapDelete_self (c : Cache) (k : String) :
    mapGet (mapDelete c k) k = none := by
  induction c with
  | nil => rfl
  | cons p rest ih =>
    obtain ⟨k0, v0⟩ := p
    by_cases hk : k0 == k
    · simp [mapDelete, hk, ih]
    · simp [mapDelete, mapGet, hk, ih]

theorem lookupField_of_hasKey_false (fs : List (String × Json)) (k : String)
    (h : hasKey fs k = false) : lookupField fs k = none := by
  induction fs with
  | nil => rfl
  | cons p rest ih =>
    obtain ⟨k0, v0⟩ := p
    simp only [hasKey, Bool.or_eq_false_iff] at h
    simp [lookupField, h.1, ih h.2]

theorem lookupField_append_right (fs l2 : List (String × Json)) (k : String)
    (h : hasKey fs k = false) :
    lookupField (fs ++ l2) k = lookupField l2 k := by
  induction fs with
  | nil => rfl
  | cons p rest ih =>
    obtain ⟨k0, v0⟩ := p
    simp only [hasKey, Bool.or_eq_false_iff] at h
    simp [lookupField, h.1, ih h.2]

theorem jget_spreadWithCached (d : Json) (h : hasOwn d "cached" = false) :
    jget (spreadWithCached d) "cached" = some (Json.jbool true) := by
  unfold hasOwn at h
  simp only [spreadWithCached, setField, h, Bool.false_eq_true, if_false, jget]
  rw [lookupField_append_right _ _ _ h]
  simp [lookupField]

theorem jget_of_hasOwn_false (d : Json) (k : String) (h : hasOwn d k = false) :
    jget d k = none := by
  cases d with
  | jobj fs => exact lookupField_of_hasKey_false fs k h
  | jnull => rfl
  | jbool b => rfl
  | jnum n => rfl
  | jstr s => rfl
  | jarr xs => rfl

theorem getFromCache_absent (now : Nat) (c : Cache) (key : String)
    (h : mapGet c key = none) :
    getFromCache now c key = (none, mapDelete c key) := by
  simp [getFromCache, h]

theorem getFromCache_stale (now : Nat) (c : Cache) (key : String) (e : CacheEntry)
    (he : mapGet c key = some e) (hst : ¬(now - e.timestamp < CACHE_DURATION)) :
    getFromCache now c key = (none, mapDelete c key) := by
  simp [getFromCache, he, hst]

theorem getFromCache_fresh (now : Nat) (c : Cache) (key : String) (e : CacheEntry)
    (he : mapGet c key = some e) (hf : now - e.timestamp < CACHE_DURATION) :
    getFromCache now c key = (some e.data, c) := by
  simp [getFromCache, he, hf]

theorem search_invalid (apiKey : Option String) (now : Nat) (up : UpstreamResp)
    (c : Cache) (q : Query)
    (h : (strFalsy q.make || strFalsy q.model || strFalsy q.year || strFalsy q.zip)
      = true) :
    search apiKey now up c q
      = ⟨⟨400, Json.jobj [("error", Json.jstr missingParamsMsg)]⟩, c, 0⟩ := by
  simp [search, h]

theorem search_hit (apiKey : Option String) (now : Nat) (up : UpstreamResp)
    (c : Cache) (q : Query) (e : CacheEntry)
    (hval : (strFalsy q.make || strFalsy q.model || strFalsy q.year
      || strFalsy q.zip) = false)
    (he : mapGet c (getCacheKey "search" (searchKeyParams q)) = some e)
    (hf : now - e.timestamp < CACHE_DURATION) :
    search apiKey now up c q = ⟨⟨200, spreadWithCached e.data⟩, c, 0⟩ := by
  simp [search, hval, getFromCache_fresh now c _ e he hf]

theorem search_miss_nokey (apiKey : Option String) (now : Nat) (up : UpstreamResp)
    (c c1 : Cache) (q : Query)
    (hval : (strFalsy q.make || strFalsy q.model || strFalsy q.year
      || strFalsy q.zip) = false)
    (hread : getFromCache now c (getCacheKey "search" (searchKeyParams q))
      = (none, c1))
    (hk : strFalsy apiKey = true) :
    search apiKey now up c q = ⟨⟨500, configErrBody⟩, c1, 0⟩ := by
  simp [search, hval, hread, hk]

theorem search_miss_badresp (apiKey : Option String) (now : Nat)
    (up : UpstreamResp) (c c1 : Cache) (q : Query)
    (hval : (strFalsy q.make || strFalsy q.model || strFalsy q.year
      || strFalsy q.zip) = false)
    (hread : getFromCache now c (getCacheKey "search" (searchKeyParams q))
      = (none, c1))
    (hk : strFalsy apiKey = false) (hbad : respOk up = false) :
    search apiKey now up c q
      = ⟨⟨up.status, upstreamErrBody up.status up.textBody⟩, c1, 1⟩ := by
  simp [search, hval, hread, hk, hbad]

theorem search_miss_empty (apiKey : Option String) (now : Nat)
    (up : UpstreamResp) (c c1 : Cache) (q : Query)
    (hval : (strFalsy q.make || strFalsy q.model || strFalsy q.year
      || strFalsy q.zip) = false)
    (hread : getFromCache now c (getCacheKey "search" (searchKeyParams q))
      = (none, c1))
    (hk : strFalsy apiKey = false) (hok : respOk up = true)
    (hemp : isEmptyListings up.jsonBody = true) :
    search apiKey now up c q = ⟨⟨200, emptyPayload⟩, c1, 1⟩ := by
  simp [search, hval, hread, hk, hok, hemp]

theorem search_miss_store (apiKey : Option String) (now : Nat)
    (up : UpstreamResp) (c c1 : Cache) (q : Query)
    (hval : (strFalsy q.make || strFalsy q.model || strFalsy q.year
      || strFalsy q.zip) = false)
    (hread : getFromCache now c (getCacheKey "search" (searchKeyParams q))
      = (none, c1))
    (hk : strFalsy apiKey = false) (hok : respOk up = true)
    (hne : isEmptyListings up.jsonBody = false) :
    search apiKey now up c q
      = ⟨⟨200, up.jsonBody⟩,
          setCache (getCacheKey "search" (searchKeyParams q)) up.jsonBody now c1,
          1⟩ := by
  simp [search, hval, hread, hk, hok, hne]

theorem search_calls_le_one (apiKey : Option String) (now : Nat)
    (up : UpstreamResp) (c : Cache) (q : Query) :
    (search apiKey now up c q).upstreamCalls ≤ 1 := by
  unfold search
  split
  · simp
  · rcases hg : getFromCache now c (getCacheKey "search" (searchKeyParams q))
      with ⟨od, c1⟩
    cases od with
    | some d => simp [hg]
    | none =>
      simp only [hg]
      split_ifs <;> simp

theorem search_miss_calls_one (apiKey : Option String) (now : Nat)
    (up : UpstreamResp) (c c1 : Cache) (q : Query)
    (hval : (strFalsy q.make || strFalsy q.model || strFalsy q.year
      || strFalsy q.zip) = false)
    (hread : getFromCache now c (getCacheKey "search" (searchKeyParams q))
      = (none, c1))
    (hk : strFalsy apiKey = false) :
    (search apiKey now up c q).upstreamCalls = 1 := by
  cases hb : respOk up with
  | false => rw [search_miss_badresp apiKey now up c c1 q hval hread hk hb]
  | true =>
    cases hemp : isEmptyListings up.jsonBody with
    | true => rw [search_miss_empty apiKey now up c c1 q hval hread hk hb hemp]
    | false => rw [search_miss_store apiKey now up c c1 q hval hread hk hb hemp]

/-- A valid sample query: make Toyota, model Camry, year 2022, zip 94103,
default radius and rows. -/
def sampleQuery : Query :=
  ⟨some "Toyota", some "Camry", some "2022", some "94103", none, none⟩

/-- A sample upstream success payload with one listing. -/
def sampleListings : Json :=
  Json.jobj [("listings", Json.jarr [Json.jobj [("id", Json.jnum 1)]]),
    ("num_found", Json.jnum 1)]

/-- A sample successful upstream reply. -/
def sampleUp : UpstreamResp := ⟨200, "", sampleListings⟩

/-- A sample successful upstream reply with zero listings. -/
def sampleEmptyUp : UpstreamResp :=
  ⟨200, "", Json.jobj [("listings", Json.jarr []), ("num_found", Json.jnum 0)]⟩

/-- A sample failed upstream reply. -/
def sampleBadUp : UpstreamResp := ⟨502, "Bad Gateway", Json.jnull⟩

/-- The cache key of the sample query. -/
def sampleKey : String := getCacheKey "search" (searchKeyParams sampleQuery)

/-- Claim C1: for a valid descriptor with no prior cache entry, the first
lookup performs one upstream call, returns the upstream payload verbatim
(hence without a cached flag, which the upstream payload lacks), and stores it
under the descriptor key with the current timestamp; a second lookup within
the TTL window performs no upstream call and returns the identical stored
payload extended with cached set to true. -/
theorem c1_second_lookup_cached (apiKey : Option String) (now1 now2 : Nat)
    (up1 up2 : UpstreamResp) (c : Cache) (q : Query)
    (hval : (strFalsy q.make || strFalsy q.model || strFalsy q.year
      || strFalsy q.zip) = false)
    (hk : strFalsy apiKey = false)
    (hmiss : mapGet c (getCacheKey "search" (searchKeyParams q)) = none)
    (hok : respOk up1 = true)
    (hne : isEmptyListings up1.jsonBody = false)
    (hnc : hasOwn up1.jsonBody "cached" = false)
    (httl : now2 - now1 < CACHE_DURATION) :
    (search apiKey now1 up1 c q).upstreamCalls = 1
    ∧ (search apiKey now1 up1 c q).resp = ⟨200, up1.jsonBody⟩
    ∧ jget (search apiKey now1 up1 c q).resp.body "cached" = none
    ∧ mapGet (search apiKey now1 up1 c q).cache
        (getCacheKey "search" (searchKeyParams q)) = some ⟨up1.jsonBody, now1⟩
    ∧ (search apiKey now2 up2 (search apiKey now1 up1 c q).cache q).upstreamCalls
        = 0
    ∧ (search apiKey now2 up2 (search apiKey now1 up1 c q).cache q).resp
        = ⟨200, spreadWithCached up1.jsonBody⟩
    ∧ jget (search apiKey now2 up2
        (search apiKey now1 up1 c q).cache q).resp.body "cached"
        = some (Json.jbool true) := by
  have hread := getFromCache_absent now1 c _ hmiss
  rw [mapDelete_of_get_none c _ hmiss] at hread
  have h1 := search_miss_store apiKey now1 up1 c c q hval hread hk hok hne
  have hentry : mapGet (search apiKey now1 up1 c q).cache
      (getCacheKey "search" (searchKeyParams q)) = some ⟨up1.jsonBody, now1⟩ := by
    rw [h1]
    exact mapGet_mapSet_self c _ _
  have h2 := search_hit apiKey now2 up2 (search apiKey now1 up1 c q).cache q
    ⟨up1.jsonBody, now1⟩ hval hentry httl
  refine ⟨by rw [h1], by rw [h1], ?_, hentry, by rw [h2], by rw [h2], ?_⟩
  · rw [h1]
    exact jget_of_hasOwn_false _ _ hnc
  · rw [h2]
    exact jget_spreadWithCached _ hnc

/-- Witness for C1 at the sample query with the clock moving from 0 to 1000. -/
theorem c1_second_lookup_cached_witness :
    ((strFalsy sampleQuery.make || strFalsy sampleQuery.model
      || strFalsy sampleQuery.year || strFalsy sampleQuery.zip) = false)
    ∧ strFalsy (some "testkey") = false
    ∧ mapGet [] sampleKey = none
    ∧ respOk sampleUp = true
    ∧ isEmptyListings sampleUp.jsonBody = false
    ∧ hasOwn sampleUp.jsonBody "cached" = false
    ∧ 1000 - 0 < CACHE_DURATION
    ∧ ((search (some "testkey") 0 sampleUp [] sampleQuery).upstreamCalls = 1
      ∧ (search (some "testkey") 0 sampleUp [] sampleQuery).resp
          = ⟨200, sampleUp.jsonBody⟩
      ∧ jget (search (some "testkey") 0 sampleUp [] sampleQuery).resp.body
          "cached" = none
      ∧ mapGet (search (some "testkey") 0 sampleUp [] sampleQuery).cache
          (getCacheKey "search" (searchKeyParams sampleQuery))
          = some ⟨sampleUp.jsonBody, 0⟩
      ∧ (search (some "testkey") 1000 sampleUp
          (search (some "testkey") 0 sampleUp [] sampleQuery).cache
          sampleQuery).upstreamCalls = 0
      ∧ (search (some "testkey") 1000 sampleUp
          (search (some "testkey") 0 sampleUp [] sampleQuery).cache
          sampleQuery).resp = ⟨200, spreadWithCached sampleUp.jsonBody⟩
      ∧ jget (search (some "testkey") 1000 sampleUp
          (search (some "testkey") 0 sampleUp [] sampleQuery).cache
          sampleQuery).resp.body "cached" = some (Json.jbool true)) :=
  ⟨by decide, by decide, rfl, by decide, by decide, by decide, by decide,
    c1_second_lookup_cached (some "testkey") 0 1000 sampleUp sampleUp []
      sampleQuery (by decide) (by decide) rfl (by decide) (by decide)
      (by decide) (by decide)⟩

/-- Claim C2: the TTL is 1800000 milliseconds; getFromCache hands back a
stored payload only when now minus the stored timestamp is below the TTL and
leaves the cache untouched in that case; a read that finds a stale entry
deletes it, and a lookup that hits such a stale entry proceeds as a miss and
performs a fresh upstream call. -/
theorem c2_ttl_lazy_expiry (apiKey : Option String) (now : Nat)
    (up : UpstreamResp) (c : Cache) (q : Query) (e : CacheEntry)
    (hval : (strFalsy q.make || strFalsy q.model || strFalsy q.year
      || strFalsy q.zip) = false)
    (hk : strFalsy apiKey = false)
    (he : mapGet c (getCacheKey "search" (searchKeyParams q)) = some e)
    (hstale : ¬(now - e.timestamp < CACHE_DURATION)) :
    CACHE_DURATION = 1800000
    ∧ (∀ (now0 : Nat) (c0 : Cache) (k : String) (d : Json) (c2 : Cache),
        getFromCache now0 c0 k = (some d, c2) →
          ∃ e0, mapGet c0 k = some e0 ∧ e0.data = d
            ∧ now0 - e0.timestamp < CACHE_DURATION ∧ c2 = c0)
    ∧ getFromCache now c (getCacheKey "search" (searchKeyParams q))
        = (none, mapDelete c (getCacheKey "search" (searchKeyParams q)))
    ∧ mapGet (mapDelete c (getCacheKey "search" (searchKeyParams q)))
        (getCacheKey "search" (searchKeyParams q)) = none
    ∧ (search apiKey now up c q).upstreamCalls = 1 := by
  refine ⟨rfl, ?_, getFromCache_stale now c _ e he hstale,
    mapGet_mapDelete_self c _, ?_⟩
  · intro now0 c0 k d c2 hgf
    cases hget : mapGet c0 k with
    | none =>
      rw [getFromCache_absent now0 c0 k hget] at hgf
      simp at hgf
    | some e0 =>
      by_cases hf : now0 - e0.timestamp < CACHE_DURATION
      · rw [getFromCache_fresh now0 c0 k e0 hget hf] at hgf
        simp only [Prod.mk.injEq, Option.some.injEq] at hgf
        exact ⟨e0, rfl, hgf.1, hf, hgf.2.symm⟩
      · rw [getFromCache_stale now0 c0 k e0 hget hf] at hgf
        simp at hgf
  · exact search_miss_calls_one apiKey now up c _ q hval
      (getFromCache_stale now c _ e he hstale) hk

/-- Witness for C2: a cache holding the sample key stamped at time 0, read at
exactly the TTL boundary. -/
theorem c2_ttl_lazy_expiry_witness :
    ((strFalsy sampleQuery.make || strFalsy sampleQuery.model
      || strFalsy sampleQuery.year || strFalsy sampleQuery.zip) = false)
    ∧ mapGet [(sampleKey, (⟨sampleListings, 0⟩ : CacheEntry))] sampleKey
        = some (⟨sampleListings, 0⟩ : CacheEntry)
    ∧ ¬(1800000 - 0 < CACHE_DURATION)
    ∧ (CACHE_DURATION = 1800000
      ∧ (∀ (now0 : Nat) (c0 : Cache) (k : String) (d : Json) (c2 : Cache),
          getFromCache now0 c0 k = (some d, c2) →
            ∃ e0, mapGet c0 k = some e0 ∧ e0.data = d
              ∧ now0 - e0.timestamp < CACHE_DURATION ∧ c2 = c0)
      ∧ getFromCache 1800000 [(sampleKey, ⟨sampleListings, 0⟩)]
          (getCacheKey "search" (searchKeyParams sampleQuery))
          = (none, mapDelete [(sampleKey, ⟨sampleListings, 0⟩)]
              (getCacheKey "search" (searchKeyParams sampleQuery)))
      ∧ mapGet (mapDelete [(sampleKey, ⟨sampleListings, 0⟩)]
            (getCacheKey "search" (searchKeyParams sampleQuery)))
          (getCacheKey "search" (searchKeyParams sampleQuery)) = none
      ∧ (search (some "testkey") 1800000 sampleUp
          [(sampleKey, ⟨sampleListings, 0⟩)] sampleQuery).upstreamCalls = 1) :=
  ⟨by decide, rfl, by decide,
    c2_ttl_lazy_expiry (some "testkey") 1800000 sampleUp
      [(sampleKey, ⟨sampleListings, 0⟩)] sampleQuery ⟨sampleListings, 0⟩
      (by decide) (by decide) rfl (by decide)⟩

/-- Claim C3: a request missing any of the four required fields (absent or
empty) gets a 400 response whose error message names the required fields, the
cache is left unchanged, and no upstream call is performed. -/
theorem c3_validation_before_effects (apiKey : Option String) (now : Nat)
    (up : UpstreamResp) (c : Cache) (q : Query)
    (hinv : (strFalsy q.make || strFalsy q.model || strFalsy q.year
      || strFalsy q.zip) = true) :
    (search apiKey now up c q).resp
      = ⟨400, Json.jobj [("error", Json.jstr missingParamsMsg)]⟩
    ∧ (search apiKey now up c q).cache = c
    ∧ (search apiKey now up c q).upstreamCalls = 0
    ∧ missingParamsMsg = "Missing required parameters: make, model, year, zip" := by
  have h := search_invalid apiKey now up c q hinv
  exact ⟨by rw [h], by rw [h], by rw [h], rfl⟩

/-- Witness for C3: the sample query with its make removed, against a
nonempty cache, returns 400 and touches nothing. -/
theorem c3_validation_before_effects_witness :
    ((strFalsy (none : Option String)
      || strFalsy sampleQuery.model || strFalsy sampleQuery.year
      || strFalsy sampleQuery.zip) = true)
    ∧ ((search (some "testkey") 5 sampleUp [("k", ⟨sampleListings, 0⟩)]
          ⟨none, sampleQuery.model, sampleQuery.year, sampleQuery.zip, none, none⟩).resp
        = ⟨400, Json.jobj [("error", Json.jstr missingParamsMsg)]⟩
      ∧ (search (some "testkey") 5 sampleUp [("k", ⟨sampleListings, 0⟩)]
          ⟨none, sampleQuery.model, sampleQuery.year, sampleQuery.zip, none, none⟩).cache
          = [("k", ⟨sampleListings, 0⟩)]
      ∧ (search (some "testkey") 5 sampleUp [("k", ⟨sampleListings, 0⟩)]
          ⟨none, sampleQuery.model, sampleQuery.year, sampleQuery.zip, none, none⟩).upstreamCalls
          = 0
      ∧ missingParamsMsg
          = "Missing required parameters: make, model, year, zip") :=
  ⟨by decide,
    c3_validation_before_effects (some "testkey") 5 sampleUp
      [("k", ⟨sampleListings, 0⟩)]
      ⟨none, sampleQuery.model, sampleQuery.year, sampleQuery.zip, none, none⟩
      (by decide)⟩

/-- Claim C4 counterexample: at a concrete valid query whose upstream reply
has zero listings, the response payload has no field named count at all (its
count field is named num_found), so the payload does not contain count=0 as
the claim states. -/
theorem c4_counterexample :
    (search (some "testkey") 0 sampleEmptyUp [] sampleQuery).resp.body
      = emptyPayload
    ∧ jget (search (some "testkey") 0 sampleEmptyUp [] sampleQuery).resp.body
        "count" = none
    ∧ ¬(jget (search (some "testkey") 0 sampleEmptyUp [] sampleQuery).resp.body
        "count" = some (Json.jnum 0)) := by
  refine ⟨rfl, rfl, ?_⟩
  intro h
  rw [show jget (search (some "testkey") 0 sampleEmptyUp [] sampleQuery).resp.body
    "count" = none from rfl] at h
  exact Option.noConfusion h

/-- Claim C4 as amended: for a valid descriptor whose upstream call succeeds
with zero results, the response payload has listings=[] and num_found=0 (the
count field is named num_found, and a message field is included), no cache
entry is written, and a subsequent identical lookup performs a fresh upstream
call. -/
theorem c4_empty_results_not_cached (apiKey : Option String) (now1 now2 : Nat)
    (up1 up2 : UpstreamResp) (c : Cache) (q : Query)
    (hval : (strFalsy q.make || strFalsy q.model || strFalsy q.year
      || strFalsy q.zip) = false)
    (hk : strFalsy apiKey = false)
    (hmiss : mapGet c (getCacheKey "search" (searchKeyParams q)) = none)
    (hok : respOk up1 = true)
    (hlist : jget up1.jsonBody "listings" = some (Json.jarr [])) :
    (search apiKey now1 up1 c q).resp = ⟨200, emptyPayload⟩
    ∧ jget emptyPayload "listings" = some (Json.jarr [])
    ∧ jget emptyPayload "num_found" = some (Json.jnum 0)
    ∧ jget emptyPayload "count" = none
    ∧ (search apiKey now1 up1 c q).cache = c
    ∧ mapGet (search apiKey now1 up1 c q).cache
        (getCacheKey "search" (searchKeyParams q)) = none
    ∧ (search apiKey now2 up2 (search apiKey now1 up1 c q).cache q).upstreamCalls
        = 1 := by
  have hemp : isEmptyListings up1.jsonBody = true := by
    unfold isEmptyListings
    rw [hlist]
    rfl
  have hread := getFromCache_absent now1 c _ hmiss
  rw [mapDelete_of_get_none c _ hmiss] at hread
  have h1 := search_miss_empty apiKey now1 up1 c c q hval hread hk hok hemp
  have hc1 : (search apiKey now1 up1 c q).cache = c := by rw [h1]
  refine ⟨by rw [h1], rfl, rfl, rfl, hc1, by rw [hc1]; exact hmiss, ?_⟩
  rw [hc1]
  have hread2 := getFromCache_absent now2 c _ hmiss
  rw [mapDelete_of_get_none c _ hmiss] at hread2
  exact search_miss_calls_one apiKey now2 up2 c c q hval hread2 hk

/-- Witness for C4 as amended, at the sample query with the zero-listings
upstream reply. -/
theorem c4_empty_results_not_cached_witness :
    ((strFalsy sampleQuery.make || strFalsy sampleQuery.model
      || strFalsy sampleQuery.year || strFalsy sampleQuery.zip) = false)
    ∧ mapGet [] sampleKey = none
    ∧ respOk sampleEmptyUp = true
    ∧ jget sampleEmptyUp.jsonBody "listings" = some (Json.jarr [])
    ∧ ((search (some "testkey") 0 sampleEmptyUp [] sampleQuery).resp
        = ⟨200, emptyPayload⟩
      ∧ jget emptyPayload "listings" = some (Json.jarr [])
      ∧ jget emptyPayload "num_found" = some (Json.jnum 0)
      ∧ jget emptyPayload "count" = none
      ∧ (search (some "testkey") 0 sampleEmptyUp [] sampleQuery).cache = []
      ∧ mapGet (search (some "testkey") 0 sampleEmptyUp [] sampleQuery).cache
          (getCacheKey "search" (searchKeyParams sampleQuery)) = none
      ∧ (search (some "testkey") 7 sampleEmptyUp
          (search (some "testkey") 0 sampleEmptyUp [] sampleQuery).cache
          sampleQuery).upstreamCalls = 1) :=
  ⟨by decide, rfl, by decide, rfl,
    c4_empty_results_not_cached (some "testkey") 0 7 sampleEmptyUp sampleEmptyUp
      [] sampleQuery (by decide) (by decide) rfl (by decide) rfl⟩

/-- Claim C5: the cache key is a deterministic function of the params tuple
(make, model, year, zip/location, radius): two tuples produce the same key
exactly when they are equal, so identical tuples give identical keys and
tuples differing in any field give distinct keys. -/
theorem c5_cache_key_injective (p1 p2 : KeyParams) :
    getCacheKey "search" p1 = getCacheKey "search" p2 ↔ p1 = p2 :=
  ⟨getCacheKey_search_inj p1 p2, fun h => by rw [h]⟩

/-- Claim C6: a valid descriptor with no live cache entry and no configured
upstream credential gets a 500 response whose body is an object with string
error and message fields, and no upstream call is performed. -/
theorem c6_missing_key_500 (apiKey : Option String) (now : Nat)
    (up : UpstreamResp) (c : Cache) (q : Query)
    (hval : (strFalsy q.make || strFalsy q.model || strFalsy q.year
      || strFalsy q.zip) = false)
    (hnolive : (getFromCache now c (getCacheKey "search" (searchKeyParams q))).1
      = none)
    (hk : strFalsy apiKey = true) :
    (search apiKey now up c q).resp.status = 500
    ∧ (search apiKey now up c q).resp.body = configErrBody
    ∧ configErrBody
        = Json.jobj [("error", Json.jstr "Marketcheck API key not configured"),
            ("message", Json.jstr "Please add MARKETCHECK_API_KEY to your .env file")]
    ∧ (search apiKey now up c q).upstreamCalls = 0 := by
  rcases hg : getFromCache now c (getCacheKey "search" (searchKeyParams q))
    with ⟨od, c2⟩
  rw [hg] at hnolive
  cases od with
  | some d => simp at hnolive
  | none =>
    have h := search_miss_nokey apiKey now up c c2 q hval hg hk
    exact ⟨by rw [h], by rw [h], rfl, by rw [h]⟩

/-- Witness for C6: the sample query against an empty cache with no API key
configured. -/
theorem c6_missing_key_500_witness :
    ((strFalsy sampleQuery.make || strFalsy sampleQuery.model
      || strFalsy sampleQuery.year || strFalsy sampleQuery.zip) = false)
    ∧ (getFromCache 3 []
        (getCacheKey "search" (searchKeyParams sampleQuery))).1 = none
    ∧ strFalsy (none : Option String) = true
    ∧ ((search none 3 sampleUp [] sampleQuery).resp.status = 500
      ∧ (search none 3 sampleUp [] sampleQuery).resp.body = configErrBody
      ∧ configErrBody
          = Json.jobj [("error", Json.jstr "Marketcheck API key not configured"),
              ("message",
                Json.jstr "Please add MARKETCHECK_API_KEY to your .env file")]
      ∧ (search none 3 sampleUp [] sampleQuery).upstreamCalls = 0) :=
  ⟨by decide, rfl, by decide,
    c6_missing_key_500 none 3 sampleUp [] sampleQuery (by decide) rfl (by decide)⟩

/-- Claim C7: when the upstream replies with a non-success status on a cache
miss, the handler replies with that same status and a body carrying the
upstream status and raw text body verbatim, writes nothing to the cache,
performs exactly one upstream call, and in general every invocation performs
at most one upstream call. -/
theorem c7_upstream_error_propagated (apiKey : Option String) (now : Nat)
    (up : UpstreamResp) (c : Cache) (q : Query)
    (hval : (strFalsy q.make || strFalsy q.model || strFalsy q.year
      || strFalsy q.zip) = false)
    (hmiss : mapGet c (getCacheKey "search" (searchKeyParams q)) = none)
    (hk : strFalsy apiKey = false)
    (hbad : respOk up = false) :
    (search apiKey now up c q).resp
      = ⟨up.status, upstreamErrBody up.status up.textBody⟩
    ∧ upstreamErrBody up.status up.textBody
        = Json.jobj [("error", Json.jstr "Marketcheck API request failed"),
            ("status", Json.jnum up.status), ("details", Json.jstr up.textBody)]
    ∧ (search apiKey now up c q).cache = c
    ∧ (search apiKey now up c q).upstreamCalls = 1
    ∧ (∀ (k2 : Option String) (n2 : Nat) (u2 : UpstreamResp) (c2 : Cache)
        (q2 : Query), (search k2 n2 u2 c2 q2).upstreamCalls ≤ 1) := by
  have hread := getFromCache_absent now c _ hmiss
  rw [mapDelete_of_get_none c _ hmiss] at hread
  have h := search_miss_badresp apiKey now up c c q hval hread hk hbad
  exact ⟨by rw [h], rfl, by rw [h], by rw [h],
    fun k2 n2 u2 c2 q2 => search_calls_le_one k2 n2 u2 c2 q2⟩

/-- Witness for C7: the sample query against an empty cache with a 502
upstream reply. -/
theorem c7_upstream_error_propagated_witness :
    ((strFalsy sampleQuery.make || strFalsy sampleQuery.model
      || strFalsy sampleQuery.year || strFalsy sampleQuery.zip) = false)
    ∧ mapGet [] sampleKey = none
    ∧ strFalsy (some "testkey") = false
    ∧ respOk sampleBadUp = false
    ∧ ((search (some "testkey") 0 sampleBadUp [] sampleQuery).resp
        = ⟨sampleBadUp.status,
            upstreamErrBody sampleBadUp.status sampleBadUp.textBody⟩
      ∧ upstreamErrBody sampleBadUp.status sampleBadUp.textBody
          = Json.jobj [("error", Json.jstr "Marketcheck API request failed"),
              ("status", Json.jnum sampleBadUp.status),
              ("details", Json.jstr sampleBadUp.textBody)]
      ∧ (search (some "testkey") 0 sampleBadUp [] sampleQuery).cache = []
      ∧ (search (some "testkey") 0 sampleBadUp [] sampleQuery).upstreamCalls = 1
      ∧ (∀ (k2 : Option String) (n2 : Nat) (u2 : UpstreamResp) (c2 : Cache)
          (q2 : Query), (search k2 n2 u2 c2 q2).upstreamCalls ≤ 1)) :=
  ⟨by decide, rfl, by decide, by decide,
    c7_upstream_error_propagated (some "testkey") 0 sampleBadUp [] sampleQuery
      (by decide) rfl (by decide) (by decide)⟩

/-- Claim C8: the CORS origin callback passes (null, true) for every origin,
absent origins included, so the allow list never causes a rejection. -/
theorem c8_cors_allows_every_origin :
    ∀ origin : Option String, corsOrigin origin = (none, true) := by
  intro origin
  unfold corsOrigin
  split_ifs <;> rfl

/-- Claim C9: a successful upstream reply whose JSON object lacks a listings
field entirely is treated exactly like an empty result set: the handler
returns the empty payload, with listings=[], num_found=0 and a human-readable
message, and writes nothing to the cache. -/
theorem c9_missing_listings_like_empty (apiKey : Option String) (now : Nat)
    (up : UpstreamResp) (c : Cache) (q : Query) (fs : List (String × Json))
    (hval : (strFalsy q.make || strFalsy q.model || strFalsy q.year
      || strFalsy q.zip) = false)
    (hk : strFalsy apiKey = false)
    (hmiss : mapGet c (getCacheKey "search" (searchKeyParams q)) = none)
    (hok : respOk up = true)
    (hobj : up.jsonBody = Json.jobj fs)
    (hnol : lookupField fs "listings" = none) :
    (search apiKey now up c q).resp = ⟨200, emptyPayload⟩
    ∧ jget emptyPayload "listings" = some (Json.jarr [])
    ∧ jget emptyPayload "num_found" = some (Json.jnum 0)
    ∧ jget emptyPayload "message"
        = some (Json.jstr "No listings found for this vehicle")
    ∧ (search apiKey now up c q).cache = c
    ∧ mapGet (search apiKey now up c q).cache
        (getCacheKey "search" (searchKeyParams q)) = none := by
  have hj : jget up.jsonBody "listings" = none := by
    rw [hobj]
    exact hnol
  have hemp : isEmptyListings up.jsonBody = true := by
    simp [isEmptyListings, hj]
  have hread := getFromCache_absent now c _ hmiss
  rw [mapDelete_of_get_none c _ hmiss] at hread
  have h1 := search_miss_empty apiKey now up c c q hval hread hk hok hemp
  exact ⟨by rw [h1], rfl, rfl, rfl, by rw [h1], by rw [h1]; exact hmiss⟩

/-- Witness for C9: an upstream object with only a num_found field. -/
theorem c9_missing_listings_like_empty_witness :
    ((strFalsy sampleQuery.make || strFalsy sampleQuery.model
      || strFalsy sampleQuery.year || strFalsy sampleQuery.zip) = false)
    ∧ mapGet [] sampleKey = none
    ∧ respOk (⟨200, "", Json.jobj [("num_found", Json.jnum 0)]⟩ : UpstreamResp)
        = true
    ∧ lookupField [("num_found", Json.jnum 0)] "listings" = none
    ∧ ((search (some "testkey") 0
          ⟨200, "", Json.jobj [("num_found", Json.jnum 0)]⟩ [] sampleQuery).resp
        = ⟨200, emptyPayload⟩
      ∧ jget emptyPayload "listings" = some (Json.jarr [])
      ∧ jget emptyPayload "num_found" = some (Json.jnum 0)
      ∧ jget emptyPayload "message"
          = some (Json.jstr "No listings found for this vehicle")
      ∧ (search (some "testkey") 0
          ⟨200, "", Json.jobj [("num_found", Json.jnum 0)]⟩ [] sampleQuery).cache
          = []
      ∧ mapGet (search (some "testkey") 0
            ⟨200, "", Json.jobj [("num_found", Json.jnum 0)]⟩ [] sampleQuery).cache
          (getCacheKey "search" (searchKeyParams sampleQuery)) = none) :=
  ⟨by decide, rfl, by decide, rfl,
    c9_missing_listings_like_empty (some "testkey") 0
      ⟨200, "", Json.jobj [("num_found", Json.jnum 0)]⟩ [] sampleQuery
      [("num_found", Json.jnum 0)] (by decide) (by decide) rfl (by decide) rfl
      rfl⟩

/-- Claim C10: rows is not part of the cache key, so a second valid request
differing from the first only in rows, within the TTL window after the first
cached a non-empty result, produces the same key, returns the first request
payload extended with cached=true, and performs no upstream call. -/
theorem c10_rows_excluded_from_key (apiKey : Option String) (now1 now2 : Nat)
    (up1 up2 : UpstreamResp) (c : Cache) (q : Query) (rows2 : Option String)
    (hval : (strFalsy q.make || strFalsy q.model || strFalsy q.year
      || strFalsy q.zip) = false)
    (hk : strFalsy apiKey = false)
    (hmiss : mapGet c (getCacheKey "search" (searchKeyParams q)) = none)
    (hok : respOk up1 = true)
    (hne : isEmptyListings up1.jsonBody = false)
    (hnc : hasOwn up1.jsonBody "cached" = false)
    (httl : now2 - now1 < CACHE_DURATION) :
    getCacheKey "search" (searchKeyParams { q with rows := rows2 })
      = getCacheKey "search" (searchKeyParams q)
    ∧ (search apiKey now1 up1 c q).upstreamCalls = 1
    ∧ (search apiKey now2 up2 (search apiKey now1 up1 c q).cache
        { q with rows := rows2 }).upstreamCalls = 0
    ∧ (search apiKey now2 up2 (search apiKey now1 up1 c q).cache
        { q with rows := rows2 }).resp = ⟨200, spreadWithCached up1.jsonBody⟩
    ∧ jget (search apiKey now2 up2 (search apiKey now1 up1 c q).cache
        { q with rows := rows2 }).resp.body "cached"
        = some (Json.jbool true) := by
  have hread := getFromCache_absent now1 c _ hmiss
  rw [mapDelete_of_get_none c _ hmiss] at hread
  have h1 := search_miss_store apiKey now1 up1 c c q hval hread hk hok hne
  have hentry : mapGet (search apiKey now1 up1 c q).cache
      (getCacheKey "search" (searchKeyParams q)) = some ⟨up1.jsonBody, now1⟩ := by
    rw [h1]
    exact mapGet_mapSet_self c _ _
  have h2 := search_hit apiKey now2 up2 (search apiKey now1 up1 c q).cache
    { q with rows := rows2 } ⟨up1.jsonBody, now1⟩ hval hentry httl
  refine ⟨rfl, by rw [h1], by rw [h2], by rw [h2], ?_⟩
  rw [h2]
  exact jget_spreadWithCached _ hnc

/-- Witness for C10: the sample query followed by the same query with rows
set to 25, within the TTL window. -/
theorem c10_rows_excluded_from_key_witness :
    ((strFalsy sampleQuery.make || strFalsy sampleQuery.model
      || strFalsy sampleQuery.year || strFalsy sampleQuery.zip) = false)
    ∧ mapGet [] sampleKey = none
    ∧ respOk sampleUp = true
    ∧ isEmptyListings sampleUp.jsonBody = false
    ∧ hasOwn sampleUp.jsonBody "cached" = false
    ∧ 60000 - 0 < CACHE_DURATION
    ∧ (getCacheKey "search"
          (searchKeyParams { sampleQuery with rows := some "25" })
        = getCacheKey "search" (searchKeyParams sampleQuery)
      ∧ (search (some "testkey") 0 sampleUp [] sampleQuery).upstreamCalls = 1
      ∧ (search (some "testkey") 60000 sampleUp
          (search (some "testkey") 0 sampleUp [] sampleQuery).cache
          { sampleQuery with rows := some "25" }).upstreamCalls = 0
      ∧ (search (some "testkey") 60000 sampleUp
          (search (some "testkey") 0 sampleUp [] sampleQuery).cache
          { sampleQuery with rows := some "25" }).resp
          = ⟨200, spreadWithCached sampleUp.jsonBody⟩
      ∧ jget (search (some "testkey") 60000 sampleUp
          (search (some "testkey") 0 sampleUp [] sampleQuery).cache
          { sampleQuery with rows := some "25" }).resp.body "cached"
          = some (Json.jbool true)) :=
  ⟨by decide, rfl, by decide, by decide, by decide, by decide,
    c10_rows_excluded_from_key (some "testkey") 0 60000 sampleUp sampleUp []
      sampleQuery (some "25") (by decide) (by decide) rfl (by decide)
      (by decide) (by decide) (by decide)⟩

end VehiclePriceFinder
